import Mathlib

/-!
Verification of the PriceChekRider conversational-commerce core
(`app/routers/sms.py`, `app/routers/ussd.py`, `app/services/scraper.py`,
`app/models.py`).

Numeric values (Python ints/floats flowing through prices and totals) are
modelled as `ℚ`; Python `int(x)` truncation is `pyInt`.  Strings are Lean
`String`s; the repository only manipulates ASCII here, and the Python string
methods it uses (`strip`, `upper`, `lower`, `split`, `replace`, `startswith`,
slicing, `join`) are embedded as the structurally recursive `py*` helpers
below so that proofs can evaluate them.
-/

/-- Python `str.strip()` for ASCII input: drop leading and trailing
whitespace.  Implemented on the character list so that proofs can evaluate it. -/
def pyStrip (s : String) : String :=
  ⟨((s.data.dropWhile Char.isWhitespace).reverse.dropWhile Char.isWhitespace).reverse⟩

/-- Python `str.upper()` for ASCII input. -/
def pyUpper (s : String) : String := ⟨s.data.map Char.toUpper⟩

/-- Python `str.lower()` for ASCII input. -/
def pyLower (s : String) : String := ⟨s.data.map Char.toLower⟩

/-- Python `str.startswith(pat)`. -/
def pyStartsWith (s pat : String) : Bool := pat.data.isPrefixOf s.data

/-- Python `str[:n]`: the first n characters. -/
def pyTake (s : String) (n : ℕ) : String := ⟨s.data.take n⟩

/-- Splitter: one split point per character satisfying the predicate, so n
separator characters yield n+1 (possibly empty) segments, as in Python
`str.split(sep)` on single-character separators. -/
def splitAux (p : Char → Bool) : List Char → List Char → List String
  | [], acc => [⟨acc.reverse⟩]
  | c :: cs, acc => if p c then ⟨acc.reverse⟩ :: splitAux p cs [] else splitAux p cs (c :: acc)

/-- Split a string at every character satisfying the predicate. -/
def pySplit (s : String) (p : Char → Bool) : List String := splitAux p s.data []

/-- Fuel-indexed scanner for `pyReplace`; the fuel (initially the string
length) bounds recursion, consuming at least one character per step for a
non-empty pattern. -/
def replaceAllAux (pat rep : List Char) : ℕ → List Char → List Char
  | _, [] => []
  | 0, l => l
  | fuel+1, c :: cs =>
    if pat.isPrefixOf (c :: cs) then rep ++ replaceAllAux pat rep fuel ((c :: cs).drop pat.length)
    else c :: replaceAllAux pat rep fuel cs

/-- Python `str.replace(pat, rep)` for a non-empty pattern: replace every
non-overlapping occurrence, scanning left to right. -/
def pyReplace (s pat rep : String) : String :=
  ⟨replaceAllAux pat.data rep.data s.data.length s.data⟩

/-- Python `sep.join(parts)`. -/
def pyJoin (sep : String) : List String → String
  | [] => ""
  | [x] => x
  | x :: y :: rest => x ++ sep ++ pyJoin sep (y :: rest)

/-- Computable floor of a rational, evaluable by the kernel (the `⌊·⌋`
instance on `ℚ` does not reduce definitionally). -/
def ratFloor (q : ℚ) : ℤ := q.num / (q.den : ℤ)

theorem ratFloor_eq (q : ℚ) : ratFloor q = ⌊q⌋ := Rat.floor_def.symm

/-- Python `int(x)` applied to a rational: truncation toward zero. -/
def pyInt (q : ℚ) : ℤ := if 0 ≤ q then ratFloor q else -(ratFloor (-q))

/-- Round to the nearest integer, ties to even (CPython float formatting rule). -/
def roundHalfEven (q : ℚ) : ℤ :=
  let f := ratFloor q
  let r := q - (f : ℚ)
  if r < 1/2 then f else if 1/2 < r then f + 1 else if f % 2 = 0 then f else f + 1

/-- Two-digit zero padding used by `money2`. -/
def pad2 (n : ℕ) : String := if n < 10 then "0" ++ toString n else toString n

/-- Python `f"{x:.2f}"` on an exact rational value. -/
def money2 (q : ℚ) : String :=
  let n := roundHalfEven (q * 100)
  let m := n.natAbs
  let base := toString (m / 100) ++ "." ++ pad2 (m % 100)
  if n < 0 then "-" ++ base else base

/-- Price Offer as returned by the scraper / carried inside a price snapshot
(`scraper.py` dict literals: shop, price, rider_time, store_location, average). -/
structure Offer where
  shop : String
  price : ℚ
  rider_time : String
  store_location : String
  average : ℚ
deriving DecidableEq

/-- Price Snapshot: insertion-ordered mapping from product name to its offer
list, modelling the Python `dict[str, list[dict]]` `all_prices`. -/
abbrev Snapshot := List (String × List Offer)

namespace MockScraper

/-- MOCK_PRICES["sugar"] (`scraper.py` lines 19-24). -/
def sugarOffers : List Offer :=
  [⟨"Naivas", 230, "5 min", "Naivas Kileleshwa", 240⟩,
   ⟨"Quickmart", 245, "8 min", "QuickMart Kileleshwa", 255⟩,
   ⟨"Tuskys", 250, "10 min", "Tuskys Kileleshwa", 260⟩,
   ⟨"Carrefour", 235, "12 min", "Carrefour Kileleshwa", 245⟩]

/-- MOCK_PRICES["milk"] (`scraper.py` lines 25-30). -/
def milkOffers : List Offer :=
  [⟨"Naivas", 120, "5 min", "Naivas Kileleshwa", 125⟩,
   ⟨"Quickmart", 125, "8 min", "QuickMart Kileleshwa", 130⟩,
   ⟨"Tuskys", 130, "10 min", "Tuskys Kileleshwa", 132⟩,
   ⟨"Carrefour", 118, "12 min", "Carrefour Kileleshwa", 122⟩]

/-- MOCK_PRICES["bread"] (`scraper.py` lines 31-36). -/
def breadOffers : List Offer :=
  [⟨"Naivas", 55, "5 min", "Naivas Kileleshwa", 58⟩,
   ⟨"Quickmart", 60, "8 min", "QuickMart Kileleshwa", 62⟩,
   ⟨"Tuskys", 58, "10 min", "Tuskys Kileleshwa", 60⟩,
   ⟨"Carrefour", 57, "12 min", "Carrefour Kileleshwa", 59⟩]

/-- MOCK_PRICES["rice"] (`scraper.py` lines 37-42). -/
def riceOffers : List Offer :=
  [⟨"Naivas", 180, "5 min", "Naivas Kileleshwa", 185⟩,
   ⟨"Quickmart", 185, "8 min", "QuickMart Kileleshwa", 190⟩,
   ⟨"Tuskys", 190, "10 min", "Tuskys Kileleshwa", 195⟩,
   ⟨"Carrefour", 175, "12 min", "Carrefour Kileleshwa", 180⟩]

/-- MOCK_PRICES["cooking oil"] (`scraper.py` lines 43-48). -/
def cookingOilOffers : List Offer :=
  [⟨"Naivas", 450, "5 min", "Naivas Kileleshwa", 460⟩,
   ⟨"Quickmart", 460, "8 min", "QuickMart Kileleshwa", 470⟩,
   ⟨"Tuskys", 470, "10 min", "Tuskys Kileleshwa", 475⟩,
   ⟨"Carrefour", 445, "12 min", "Carrefour Kileleshwa", 455⟩]

/-- MOCK_PRICES["tea"] (`scraper.py` lines 49-54). -/
def teaOffers : List Offer :=
  [⟨"Naivas", 95, "5 min", "Naivas Kileleshwa", 98⟩,
   ⟨"Quickmart", 100, "8 min", "QuickMart Kileleshwa", 102⟩,
   ⟨"Tuskys", 98, "10 min", "Tuskys Kileleshwa", 100⟩,
   ⟨"Carrefour", 92, "12 min", "Carrefour Kileleshwa", 95⟩]

/-- Fixed delivery fee constant `MockScraper.DELIVERY_FEE_KES` (`scraper.py` line 56). -/
def DELIVERY_FEE_KES : ℚ := 150

/-- Keyed access to the `MOCK_PRICES` dict: `some` on the six known keys, `none`
otherwise (the `product_key in cls.MOCK_PRICES` membership test). -/
def mockLookup (key : String) : Option (List Offer) :=
  if key = "sugar" then some sugarOffers
  else if key = "milk" then some milkOffers
  else if key = "bread" then some breadOffers
  else if key = "rice" then some riceOffers
  else if key = "cooking oil" then some cookingOilOffers
  else if key = "tea" then some teaOffers
  else none

/-- Fallback offer list returned for unknown product names (`scraper.py` lines 80-84). -/
def defaultOffers : List Offer :=
  [⟨"Naivas", 200, "5 min", "Naivas", 210⟩,
   ⟨"Quickmart", 210, "8 min", "QuickMart", 215⟩,
   ⟨"Tuskys", 215, "10 min", "Tuskys", 220⟩]

/-- MockScraper.get_prices (`scraper.py` lines 58-84): lower-case and strip the
product name, look it up in MOCK_PRICES, fall back to `defaultOffers` on a miss.
The `city` argument is accepted and ignored, as in the source. -/
def get_prices (product_name : String) (city : Option String) : List Offer :=
  let product_key := pyStrip (pyLower product_name)
  match mockLookup product_key with
  | some prices => prices
  | none => defaultOffers

end MockScraper

/-- First offer attaining the minimal price, i.e. `sorted(prices, key=lambda x: x["price"])[0]`
with Python's stable sort; junk value on the empty list (on which the source
would raise IndexError, a case the callers never reach). -/
def bestOfferD (l : List Offer) : Offer :=
  match l with
  | [] => ⟨"", 0, "", "", 0⟩
  | o :: os => os.foldl (fun b x => if x.price < b.price then x else b) o

/-- Minimum price among a list of offers (0 on the empty list). -/
def minPrice (l : List Offer) : ℚ :=
  match l with
  | [] => 0
  | o :: os => os.foldl (fun m x => min m x.price) o.price

/-- Arithmetic mean of all offer prices of a list. -/
def offerAvg (l : List Offer) : ℚ := (l.map Offer.price).sum / (l.length : ℚ)

theorem bestOfferD_price (l : List Offer) : (bestOfferD l).price = minPrice l := by
  match l with
  | [] => rfl
  | o :: os =>
    show (os.foldl (fun b x => if x.price < b.price then x else b) o).price
        = os.foldl (fun m x => min m x.price) o.price
    induction os generalizing o with
    | nil => rfl
    | cons x xs ih =>
      show (xs.foldl _ (if x.price < o.price then x else o)).price
          = xs.foldl _ (min o.price x.price)
      rw [ih]
      congr 1
      by_cases h : x.price < o.price
      · simp [h, min_eq_right (le_of_lt h)]
      · simp [h, min_eq_left (le_of_not_lt h)]

/-- Conversation state token as stored in `users.current_session_data`
(`models.py` line 18).  Plain tokens are kept as the literal string; a token
of the form `prices:<json>` is represented structurally: `pricesGood snap` is
a payload whose `json.loads` yields the snapshot `snap` (this also encodes that
Python's `json.dumps`/`json.loads` round-trips the snapshot the code stores),
`pricesBad j` a payload on which `json.loads` raises.  The `str` constructor is
reserved for tokens that do not start with `prices:`. -/
inductive Token where
  | str (s : String)
  | pricesGood (snap : Snapshot)
  | pricesBad (payload : String)
deriving DecidableEq

/-- Customer record row (`models.py` User): phone number, session token,
city code, location.  Timestamps carry no logic and are omitted. -/
structure UserRec where
  id : ℕ
  phone_number : String
  current_session_data : Option Token
  city_code : Option String
  location : Option String
deriving DecidableEq

/-- Order row (`models.py` Order): owning user, JSON-string item list, total,
status.  Timestamps carry no logic and are omitted. -/
structure OrderRow where
  id : ℕ
  user_id : ℕ
  items : String
  total_price : ℚ
  status : String
deriving DecidableEq

/-- Relational store: users and orders in insertion order plus the id
sequences the database would assign. -/
structure DB where
  users : List UserRec
  orders : List OrderRow
  nextUserId : ℕ
  nextOrderId : ℕ
deriving DecidableEq

/-- Lookup `db.query(User).filter(User.phone_number == phone).first()`. -/
def DB.findUser (db : DB) (phone : String) : Option UserRec :=
  db.users.find? (fun u => u.phone_number == phone)

/-- Commit of field updates on an already-loaded user row: the row with the
same primary key is replaced. -/
def DB.saveUser (db : DB) (u : UserRec) : DB :=
  { db with users := db.users.map (fun v => if v.id == u.id then u else v) }

/-- Insert of a freshly constructed user (`db.add(user); db.commit()`). -/
def DB.addUser (db : DB) (mk : ℕ → UserRec) : DB × UserRec :=
  let u := mk db.nextUserId
  ({ db with users := db.users ++ [u], nextUserId := db.nextUserId + 1 }, u)

/-- Insert of a freshly constructed order (`db.add(order); db.commit()`). -/
def DB.addOrder (db : DB) (mk : ℕ → OrderRow) : DB × OrderRow :=
  let o := mk db.nextOrderId
  ({ db with orders := db.orders ++ [o], nextOrderId := db.nextOrderId + 1 }, o)

/-- Token content seen through Python truthiness and string tests:
`startsWith "prices:"` and equality tests used by `_parse_sms_step`. -/
def tokenIsEmpty : Option Token → Bool
  | none => true
  | some (.str s) => s = ""
  | some (.pricesGood _) => false
  | some (.pricesBad _) => false

/-- Decoder `_parse_sms_step` (`sms.py` lines 52-62).  A `None` or empty token
yields "need_area"; a `prices:`-prefixed one "have_results"; the three literal
step names map to themselves; an `sms_step:`-prefixed token has every
occurrence of "sms_step:" removed (Python `str.replace` replaces all);
anything else yields "need_products". -/
def parse_sms_step (session_data : Option Token) : String :=
  match session_data with
  | none => "need_area"
  | some (.pricesGood _) => "have_results"
  | some (.pricesBad _) => "have_results"
  | some (.str s) =>
    if s = "" then "need_area"
    else if pyStartsWith s "prices:" then "have_results"
    else if s = "need_area" ∨ s = "need_search_type" ∨ s = "need_products" then s
    else if pyStartsWith s "sms_step:" then pyReplace s "sms_step:" ""
    else "need_products"

/-- ASCII letter test for the location pattern. -/
def isAsciiLetter (c : Char) : Bool :=
  (decide ('A' ≤ c) && decide (c ≤ 'Z')) || (decide ('a' ≤ c) && decide (c ≤ 'z'))

/-- Anchored, case-insensitive match of `^[A-Z]\x7b2,5\x7d-[A-Za-z]+$`
(`sms.py` line 155): two to five letters, a single dash, one or more letters. -/
def matchesLocation (s : String) : Bool :=
  match s.data.span isAsciiLetter with
  | (pre, rest) =>
    decide (2 ≤ pre.length) && decide (pre.length ≤ 5) &&
    (match rest with
     | '-' :: tail => !tail.isEmpty && tail.all isAsciiLetter
     | _ => false)

/-- Product-list splitter `[p.strip() for p in re.split(r"[,;\n]+", text) if p.strip()]`
(`sms.py` line 185): split on commas, semicolons and newlines, trim each
segment, keep the non-empty ones. -/
def splitProducts (s : String) : List String :=
  ((pySplit s (fun c => c == ',' || c == ';' || c == '\n')).map pyStrip).filter
    (fun p => p ≠ "")

/-- Python dict assignment `d[k] = v` on an insertion-ordered association
list: update in place when the key exists, append otherwise. -/
def dictInsert (d : Snapshot) (k : String) (v : List Offer) : Snapshot :=
  if d.any (fun kv => kv.1 == k) then d.map (fun kv => if kv.1 == k then (k, v) else kv)
  else d ++ [(k, v)]

/-- Accumulation of `all_prices` (`sms.py` lines 192-196): query the scraper per
product and record non-empty results keyed by the product string. -/
def buildAllPrices (loc : Option String) (products : List String) : Snapshot :=
  products.foldl
    (fun d p =>
      let prices := MockScraper.get_prices p loc
      if prices.isEmpty then d else dictInsert d p prices) []

/-- One item of an order's item list (`sms.py` lines 104-110). -/
structure OrderItem where
  product : String
  shop : String
  store_location : String
  price : ℚ
  rider_time : String
deriving DecidableEq

/-- Rendering of a JSON string literal.  The repository's product and shop
names need no escaping, which this model does not perform. -/
def jstr (s : String) : String := "\"" ++ s ++ "\""

/-- Rendering of a JSON number; integral rationals print like Python ints. -/
def jnum (q : ℚ) : String :=
  if q.den = 1 then toString q.num else toString q.num ++ "/" ++ toString q.den

/-- Rendering `json.dumps` of one order item dict. -/
def itemDump (it : OrderItem) : String :=
  "\x7b" ++ jstr "product" ++ ": " ++ jstr it.product ++ ", " ++
  jstr "shop" ++ ": " ++ jstr it.shop ++ ", " ++
  jstr "store_location" ++ ": " ++ jstr it.store_location ++ ", " ++
  jstr "price" ++ ": " ++ jnum it.price ++ ", " ++
  jstr "rider_time" ++ ": " ++ jstr it.rider_time ++ "\x7d"

/-- Rendering `json.dumps(items_list)` (`sms.py` line 116). -/
def itemsDump (l : List OrderItem) : String :=
  "[" ++ String.intercalate ", " (l.map itemDump) ++ "]"

/-- One displayed product block of the results SMS (`sms.py` lines 204-213):
the product, its cheapest offer's price and store label, and the average
displayed as `int(avg)`. -/
structure ProductLine where
  product : String
  bestPrice : ℚ
  storeLocation : String
  avgDisplay : ℤ
deriving DecidableEq

/-- Construction of one product block from a snapshot entry. -/
def lineOf (product : String) (prices : List Offer) : ProductLine :=
  let best := bestOfferD prices
  ⟨product, best.price, best.store_location, pyInt (offerAvg prices)⟩

/-- Reply message sent back over SMS, one constructor per distinct message the
handler builds (`sms.py` lines 123-218), carrying the data interpolated into
the message text. -/
inductive Reply where
  | orderConfirmed (orderId : ℕ)
  | noRecentComparison
  | cancelAck
  | productPrompt
  | locationReprompt
  | searchTypePrompt
  | searchTypeReprompt
  | emptyProductPrompt
  | notFound
  | results (lines : List ProductLine) (totalDisplay : ℤ) (fee : ℚ)
deriving DecidableEq

/-- ORDER branch (`sms.py` lines 90-135): decode the stored snapshot if the
token is `prices:`-prefixed and parses; on a truthy snapshot pick each
product's first-minimal offer, sum the chosen prices, add the delivery fee,
persist the order and reset the step to need_products. -/
def orderBranch (db : DB) (user : UserRec) : DB × Reply :=
  let last_prices : Option Snapshot :=
    match user.current_session_data with
    | some (.pricesGood snap) => some snap
    | _ => none
  match last_prices with
  | some snap =>
    if snap.isEmpty then (db, .noRecentComparison)
    else
      let items := snap.map (fun kv =>
        let best := bestOfferD kv.2
        OrderItem.mk kv.1 best.shop best.store_location best.price best.rider_time)
      let total : ℚ := (snap.map (fun kv => (bestOfferD kv.2).price)).sum
      let (db1, order) := db.addOrder (fun oid =>
        ⟨oid, user.id, itemsDump items, total + MockScraper.DELIVERY_FEE_KES, "PENDING"⟩)
      let db2 := db1.saveUser { user with current_session_data := some (.str "need_products") }
      (db2, .orderConfirmed order.id)
  | none => (db, .noRecentComparison)

/-- Product-list branch (`sms.py` lines 184-220): split the message into
products, aggregate prices, render the per-product blocks and the truncated
total, and store the snapshot in the session token. -/
def productsBranch (db : DB) (user : UserRec) (message_text : String) : DB × Reply :=
  let products := splitProducts message_text
  if products.isEmpty then (db, .emptyProductPrompt)
  else
    let all_prices := buildAllPrices user.location products
    if all_prices.isEmpty then (db, .notFound)
    else
      let lines := all_prices.map (fun kv => lineOf kv.1 kv.2)
      let totalDisplay := pyInt ((all_prices.map (fun kv => (bestOfferD kv.2).price)).sum)
      let db1 := db.saveUser { user with current_session_data := some (.pricesGood all_prices) }
      (db1, .results lines totalDisplay MockScraper.DELIVERY_FEE_KES)

/-- Dispatch of `handle_incoming_sms` after the customer record is resolved
(`sms.py` lines 87-220): decode the step, try the override commands
ORDER/CANCEL/NEW, then dispatch on the decoded step. -/
def smsDispatch (db0 : DB) (user : UserRec) (message_text msg_upper : String) : DB × Reply :=
  let step := parse_sms_step user.current_session_data
  if msg_upper = "ORDER" then orderBranch db0 user
  else if msg_upper = "CANCEL" then
    (db0.saveUser { user with current_session_data := some (.str "need_products") }, .cancelAck)
  else if msg_upper = "NEW" then
    (db0.saveUser { user with current_session_data := some (.str "need_products") }, .productPrompt)
  else if step = "need_area" then
    if matchesLocation message_text then
      (db0.saveUser { user with location := some message_text,
                                current_session_data := some (.str "need_search_type") },
       .searchTypePrompt)
    else (db0, .locationReprompt)
  else if step = "need_search_type" then
    if message_text = "1" ∨ message_text = "2" then
      (db0.saveUser { user with current_session_data := some (.str "need_products") },
       .productPrompt)
    else (db0, .searchTypeReprompt)
  else productsBranch db0 user message_text

/-- SMS handler `handle_incoming_sms` (`sms.py` lines 73-233): trim the
message, load or lazily create the customer record, and dispatch.  Returns
the updated store and the reply sent through the notification collaborator. -/
def handle_incoming_sms (db : DB) (phone text : String) : DB × Reply :=
  let message_text := pyStrip text
  match db.findUser phone with
  | some u => smsDispatch db u message_text (pyUpper message_text)
  | none =>
    let p := db.addUser (fun uid => ⟨uid, phone, none, none, none⟩)
    smsDispatch p.1 p.2 message_text (pyUpper message_text)

/-- Session token of the customer record stored for a phone number, as the
SMS engine will see it (absent when there is no record). -/
def smsSession (db : DB) (phone : String) : Option Token :=
  (db.findUser phone).bind UserRec.current_session_data

/-- Decoded conversation step the SMS engine would use for a phone number. -/
def smsStepOf (db : DB) (phone : String) : String := parse_sms_step (smsSession db phone)

/-- Location field of the customer record stored for a phone number. -/
def smsLocation (db : DB) (phone : String) : Option String :=
  (db.findUser phone).bind UserRec.location

/-- Main USSD menu screen (`ussd.py` lines 70-76). -/
def ussdMenu : String :=
  "CON Welcome to PriceChekRider!\n1. Compare Prices\n2. Order Delivery\n3. Help\n4. Exit"

/-- City-code prompt screen (`ussd.py` line 78). -/
def cityPromptScreen : String := "CON Enter your city code (e.g., NAI for Nairobi):"

/-- Acknowledgement screen after city capture (`ussd.py` lines 103-106). -/
def cityAckScreen : String :=
  "END We have noted your city. We are sending you an SMS. Please reply with your location (e.g. NAI-Kileleshwa)."

/-- Goodbye screen (`ussd.py` line 108). -/
def goodbyeScreen : String := "END Thank you for using PriceChekRider. Goodbye!"

/-- Help screen (`ussd.py` lines 110-113). -/
def helpScreen : String :=
  "END PriceChekRider helps you find the cheapest prices nearby and get delivery. Choose 1 to compare prices or 2 for delivery. Dial again to start."

/-- No-orders screen for an unknown phone (`ussd.py` line 117). -/
def noUserOrdersScreen : String := "END You have no orders yet. Use option 1 to compare prices first."

/-- No-orders screen for a known customer without orders (`ussd.py` line 121). -/
def noOrdersScreen : String := "END You have no orders yet."

/-- Invalid-option screen (`ussd.py` line 127). -/
def invalidScreen : String := "END Invalid option. Please try again."

/-- Generic catch-all error screen (`ussd.py` line 130). -/
def errorScreen : String := "END An error occurred. Please try again later."

/-- Outbound SMS sent after city capture (`ussd.py` lines 90-94). -/
def welcomeSms : String :=
  "Welcome to PriceChekRider! Reply with:\nLOCATION-FORMAT: CityCode-Area\nExample: NAI-Kileleshwa or NAI-Kasarani"

/-- One line of the recent-orders listing (`ussd.py` line 123): id, the item
string truncated to 30 characters, the total formatted with two decimals, and
the status. -/
def orderLine (o : OrderRow) : String :=
  "Order #" ++ toString o.id ++ ": " ++ pyTake o.items 30 ++ "... - KES " ++
    money2 o.total_price ++ " (" ++ o.status ++ ")"

/-- Result of one USSD callback: the plain-text screen, the updated store, and
the outbound SMS sends that were attempted (recorded whether or not the send
then fails, mirroring the inner try/except of `ussd.py` lines 95-102). -/
structure UssdOutcome where
  screen : String
  db : DB
  smsAttempts : List (String × String)
deriving DecidableEq

/-- Body of the USSD state machine inside its try block (`ussd.py` lines
62-127).  `dbFails` injects a storage failure at the first storage access of a
branch (raising, to be caught by the outer handler); `sendFails` injects a
notification-send failure, which the source catches locally and which
therefore alters nothing observable. -/
def ussdCore (phone text : String) (db : DB) (sendFails dbFails : Bool) :
    Except Unit UssdOutcome :=
  let t := pyStrip text
  let parts := if t = "" then [] else pySplit t (fun c => c == '*')
  let level := parts.length
  if level = 0 then .ok ⟨ussdMenu, db, []⟩
  else if level = 1 ∧ parts.headD "" = "1" then .ok ⟨cityPromptScreen, db, []⟩
  else if level = 2 ∧ parts.headD "" = "1" then
    if dbFails then .error ()
    else
      let city_code := pyUpper (pyStrip ((parts.drop 1).headD ""))
      match db.findUser phone with
      | none =>
        .ok ⟨cityAckScreen,
          (db.addUser (fun uid =>
            ⟨uid, phone, some (.str "sms_step:need_area"), some city_code, some city_code⟩)).1,
          [(phone, welcomeSms)]⟩
      | some u =>
        .ok ⟨cityAckScreen,
          db.saveUser { u with city_code := some city_code
                               location := some city_code
                               current_session_data := some (.str "sms_step:need_area") },
          [(phone, welcomeSms)]⟩
  else if level = 1 ∧ parts.headD "" = "4" then .ok ⟨goodbyeScreen, db, []⟩
  else if level = 1 ∧ parts.headD "" = "3" then .ok ⟨helpScreen, db, []⟩
  else if level = 1 ∧ parts.headD "" = "2" then
    if dbFails then .error ()
    else
      match db.findUser phone with
      | none => .ok ⟨noUserOrdersScreen, db, []⟩
      | some u =>
        let orders := (db.orders.filter (fun o => o.user_id == u.id)).take 5
        if orders.isEmpty then .ok ⟨noOrdersScreen, db, []⟩
        else .ok ⟨"END Your recent orders:\n" ++ pyJoin "\n" (orders.map orderLine), db, []⟩
  else .ok ⟨invalidScreen, db, []⟩

/-- USSD entry point `_ussd_logic` (`ussd.py` lines 62-130): the body's result,
with any internal exception converted to the generic error screen by the
outer try/except. -/
def ussd_logic (phone text : String) (db : DB) (sendFails dbFails : Bool) : UssdOutcome :=
  match ussdCore phone text db sendFails dbFails with
  | .ok r => r
  | .error _ => ⟨errorScreen, db, []⟩

/-- Property of a well-formed USSD response: plain text beginning with
"CON " or "END " (stated via the first four characters). -/
def screenOk (s : String) : Prop := pyTake s 4 = "CON " ∨ pyTake s 4 = "END "

/-- Rational values that are integers (what Python int arithmetic produces). -/
def IsIntQ (q : ℚ) : Prop := ∃ n : ℤ, q = (n : ℚ)

theorem isIntQ_of_den_one {q : ℚ} (h : q.den = 1) : IsIntQ q :=
  ⟨q.num, (Rat.coe_int_num_of_den_eq_one h).symm⟩

theorem isIntQ_min {a b : ℚ} (ha : IsIntQ a) (hb : IsIntQ b) : IsIntQ (min a b) := by
  rcases ha with ⟨m, rfl⟩; rcases hb with ⟨n, rfl⟩
  rcases le_total (m : ℚ) n with h | h
  · exact ⟨m, by rw [min_eq_left h]⟩
  · exact ⟨n, by rw [min_eq_right h]⟩

theorem isIntQ_sum {l : List ℚ} (h : ∀ x ∈ l, IsIntQ x) : IsIntQ l.sum := by
  induction l with
  | nil => exact ⟨0, by simp⟩
  | cons a t ih =>
    rcases h a (List.mem_cons_self a t) with ⟨m, hm⟩
    rcases ih (fun x hx => h x (List.mem_cons_of_mem a hx)) with ⟨n, hn⟩
    exact ⟨m + n, by simp [hm, hn]⟩

theorem pyInt_intCast (n : ℤ) : pyInt (n : ℚ) = n := by
  unfold pyInt
  rw [ratFloor_eq, ratFloor_eq]
  rcases le_or_lt 0 (n : ℚ) with h | h
  · rw [if_pos h, Int.floor_intCast]
  · rw [if_neg (not_le.mpr h), ← Int.cast_neg, Int.floor_intCast, neg_neg]

theorem pyInt_eq_self {q : ℚ} (h : IsIntQ q) : (pyInt q : ℚ) = q := by
  rcases h with ⟨n, rfl⟩
  rw [pyInt_intCast]

/-- Prices in every offer list the mock scraper can return are integers. -/
theorem get_prices_den_one (name : String) (city : Option String) :
    ∀ o ∈ MockScraper.get_prices name city, (o.price).den = 1 := by
  unfold MockScraper.get_prices MockScraper.mockLookup
  dsimp only
  split_ifs <;> decide

theorem get_prices_isInt (name : String) (city : Option String) :
    ∀ o ∈ MockScraper.get_prices name city, IsIntQ o.price :=
  fun o ho => isIntQ_of_den_one (get_prices_den_one name city o ho)

/-- The mock scraper never returns an empty offer list. -/
theorem get_prices_ne_nil (name : String) (city : Option String) :
    MockScraper.get_prices name city ≠ [] := by
  unfold MockScraper.get_prices MockScraper.mockLookup
  dsimp only
  split_ifs <;> decide

theorem minPrice_isInt {l : List Offer} (h : ∀ o ∈ l, IsIntQ o.price) :
    IsIntQ (minPrice l) := by
  match l with
  | [] => exact ⟨0, by simp [minPrice]⟩
  | o :: os =>
    show IsIntQ (os.foldl (fun m x => min m x.price) o.price)
    have ho := h o (List.mem_cons_self o os)
    have hos : ∀ x ∈ os, IsIntQ x.price :=
      fun x hx => h x (List.mem_cons_of_mem o hx)
    clear h
    induction os generalizing o with
    | nil => exact ho
    | cons x xs ih =>
      show IsIntQ (xs.foldl _ (min o.price x.price))
      have hmin : IsIntQ (min o.price x.price) :=
        isIntQ_min ho (hos x (List.mem_cons_self x xs))
      have := ih ⟨"", min o.price x.price, "", "", 0⟩ hmin
        (fun y hy => hos y (List.mem_cons_of_mem x hy))
      simpa using this

theorem dictInsert_keys (d : Snapshot) (k : String) (v : List Offer) :
    (dictInsert d k v).map Prod.fst =
      if d.any (fun kv => kv.1 == k) then d.map Prod.fst else d.map Prod.fst ++ [k] := by
  unfold dictInsert
  by_cases hany : (d.any (fun kv => kv.1 == k)) = true
  · rw [if_pos hany, if_pos hany, List.map_map]
    have hfun : (Prod.fst ∘ fun kv : String × List Offer =>
        if kv.1 == k then (k, v) else kv) = Prod.fst := by
      funext kv
      by_cases hk : kv.1 = k
      · simp [hk]
      · simp [hk]
    rw [hfun]
  · rw [if_neg hany, if_neg hany]
    simp

theorem dictInsert_mem {d : Snapshot} {k : String} {v : List Offer}
    {kv : String × List Offer} (h : kv ∈ dictInsert d k v) : kv ∈ d ∨ kv = (k, v) := by
  unfold dictInsert at h
  split at h
  · rcases List.mem_map.mp h with ⟨kv0, h0, rfl⟩
    by_cases hk : kv0.1 = k
    · right; simp [hk]
    · left; simpa [hk] using h0
  · rcases List.mem_append.mp h with h | h
    · exact Or.inl h
    · right; simpa using h

theorem dictInsert_keys_nodup {d : Snapshot} {k : String} {v : List Offer}
    (h : (d.map Prod.fst).Nodup) : ((dictInsert d k v).map Prod.fst).Nodup := by
  rw [dictInsert_keys]
  by_cases hany : (d.any (fun kv => kv.1 == k)) = true
  · rwa [if_pos hany]
  · rw [if_neg hany]
    have hk : k ∉ d.map Prod.fst := by
      intro hmem
      rcases List.mem_map.mp hmem with ⟨kv0, h0, hfst⟩
      exact hany (List.any_eq_true.mpr ⟨kv0, h0, by simp [hfst]⟩)
    simp [List.nodup_append, h, hk]

theorem dictInsert_keys_mem {d : Snapshot} {k : String} {v : List Offer} (q : String) :
    q ∈ (dictInsert d k v).map Prod.fst ↔ q ∈ d.map Prod.fst ∨ q = k := by
  rw [dictInsert_keys]
  by_cases hany : (d.any (fun kv => kv.1 == k)) = true
  · rw [if_pos hany]
    constructor
    · exact Or.inl
    · rintro (h | rfl)
      · exact h
      · rcases List.any_eq_true.mp hany with ⟨kv0, h0, hbeq⟩
        have hq : kv0.1 = q := beq_iff_eq.mp hbeq
        exact hq ▸ List.mem_map_of_mem Prod.fst h0
  · rw [if_neg hany]
    simp

theorem buildAllPrices_go (loc : Option String) (products : List String) :
    ∀ acc : Snapshot,
      (∀ kv ∈ acc, kv.2 = MockScraper.get_prices kv.1 loc) →
      (acc.map Prod.fst).Nodup →
      (∀ kv ∈ products.foldl
          (fun d p =>
            let prices := MockScraper.get_prices p loc
            if prices.isEmpty then d else dictInsert d p prices) acc,
        kv.2 = MockScraper.get_prices kv.1 loc) ∧
      ((products.foldl
          (fun d p =>
            let prices := MockScraper.get_prices p loc
            if prices.isEmpty then d else dictInsert d p prices) acc).map Prod.fst).Nodup ∧
      (∀ q, q ∈ (products.foldl
          (fun d p =>
            let prices := MockScraper.get_prices p loc
            if prices.isEmpty then d else dictInsert d p prices) acc).map Prod.fst ↔
        q ∈ acc.map Prod.fst ∨ q ∈ products) := by
  induction products with
  | nil =>
    intro acc hP hnd
    refine ⟨hP, hnd, fun q => ?_⟩
    simp
  | cons p ps ih =>
    intro acc hP hnd
    have hne : (MockScraper.get_prices p loc).isEmpty = false := by
      rcases hl : (MockScraper.get_prices p loc).isEmpty with _ | _
      · rfl
      · exact absurd (List.isEmpty_iff.mp hl) (get_prices_ne_nil p loc)
    rw [List.foldl_cons]
    simp only [hne, Bool.false_eq_true, if_false]
    have hP1 : ∀ kv ∈ dictInsert acc p (MockScraper.get_prices p loc),
        kv.2 = MockScraper.get_prices kv.1 loc := by
      intro kv hkv
      rcases dictInsert_mem hkv with h | rfl
      · exact hP kv h
      · rfl
    have hnd1 := dictInsert_keys_nodup (v := MockScraper.get_prices p loc) (k := p) hnd
    rcases ih (dictInsert acc p (MockScraper.get_prices p loc)) hP1 hnd1 with ⟨a, b, c⟩
    refine ⟨a, b, fun q => ?_⟩
    rw [c q, dictInsert_keys_mem]
    constructor
    · rintro ((h | rfl) | h)
      · exact Or.inl h
      · exact Or.inr (List.mem_cons_self q ps)
      · exact Or.inr (List.mem_cons_of_mem p h)
    · rintro (h | h)
      · exact Or.inl (Or.inl h)
      · rcases List.mem_cons.mp h with rfl | h
        · exact Or.inl (Or.inr rfl)
        · exact Or.inr h

theorem buildAllPrices_spec (loc : Option String) (products : List String) :
    (∀ kv ∈ buildAllPrices loc products, kv.2 = MockScraper.get_prices kv.1 loc) ∧
    ((buildAllPrices loc products).map Prod.fst).Nodup ∧
    (∀ q, q ∈ (buildAllPrices loc products).map Prod.fst ↔ q ∈ products) := by
  unfold buildAllPrices
  rcases buildAllPrices_go loc products [] (by simp) (by simp) with ⟨a, b, c⟩
  exact ⟨a, b, fun q => by rw [c q]; simp⟩

theorem buildAllPrices_ne_nil {loc : Option String} {products : List String}
    (h : products ≠ []) : buildAllPrices loc products ≠ [] := by
  rcases products with _ | ⟨p, ps⟩
  · exact absurd rfl h
  · intro hemp
    have := (buildAllPrices_spec loc (p :: ps)).2.2 p
    rw [hemp] at this
    simp at this

theorem find?_append_of_none {α : Type} {p : α → Bool} {l : List α} {x : α}
    (h : l.find? p = none) (hx : p x = true) : (l ++ [x]).find? p = some x := by
  rw [List.find?_append, h]
  simp [List.find?, hx]

theorem find?_map_update {l : List UserRec} {ph : String} {u u' : UserRec}
    (h : l.find? (fun v => v.phone_number == ph) = some u)
    (hid : u'.id = u.id) (hph : u'.phone_number = ph) :
    (l.map (fun v => if v.id == u'.id then u' else v)).find?
      (fun v => v.phone_number == ph) = some u' := by
  induction l with
  | nil => simp [List.find?] at h
  | cons a l ih =>
    by_cases ha : (a.phone_number == ph) = true
    · rw [@List.find?_cons_of_pos UserRec (fun v => v.phone_number == ph) a l ha] at h
      have hau : a = u := by injection h
      rw [List.map_cons]
      by_cases hb : (a.id == u'.id) = true
      · rw [if_pos hb]
        exact @List.find?_cons_of_pos UserRec (fun v => v.phone_number == ph) u' _ (by simp [hph])
      · exact absurd (by simp [hau, hid]) hb
    · rw [@List.find?_cons_of_neg UserRec (fun v => v.phone_number == ph) a l ha] at h
      rw [List.map_cons]
      by_cases hb : (a.id == u'.id) = true
      · rw [if_pos hb]
        exact @List.find?_cons_of_pos UserRec (fun v => v.phone_number == ph) u' _ (by simp [hph])
      · rw [if_neg hb]
        rw [@List.find?_cons_of_neg UserRec (fun v => v.phone_number == ph) a _ ha]
        exact ih h

theorem findUser_saveUser {db : DB} {ph : String} {u u' : UserRec}
    (h : db.findUser ph = some u) (hid : u'.id = u.id) (hph : u'.phone_number = ph) :
    (db.saveUser u').findUser ph = some u' :=
  find?_map_update h hid hph

theorem findUser_addUser {db : DB} {ph : String} {mk : ℕ → UserRec}
    (h : db.findUser ph = none) (hmk : (mk db.nextUserId).phone_number = ph) :
    (db.addUser mk).1.findUser ph = some (mk db.nextUserId) :=
  find?_append_of_none h (by simp [hmk])

theorem saveUser_orders (db : DB) (u : UserRec) : (db.saveUser u).orders = db.orders := rfl

theorem addUser_orders (db : DB) (mk : ℕ → UserRec) : (db.addUser mk).1.orders = db.orders := rfl

/-- C9: for every product name (including names absent from the catalog) and
any location, the price source returns a non-empty offer list (each offer
carries all five fields by construction of `Offer`), and a name whose
normalized key is not in the catalog receives exactly the fixed fallback
offer list rather than an empty result or an error. -/
theorem C9_price_source_nonempty_fallback (name : String) (city : Option String) :
    MockScraper.get_prices name city ≠ [] ∧
    (MockScraper.mockLookup (pyStrip (pyLower name)) = none →
      MockScraper.get_prices name city = MockScraper.defaultOffers) := by
  refine ⟨get_prices_ne_nil name city, fun h => ?_⟩
  unfold MockScraper.get_prices
  dsimp only
  rw [h]

/-- Witness for C9 at a product name absent from the catalog. -/
theorem C9_price_source_nonempty_fallback_witness :
    MockScraper.get_prices "Umbrella 2kg" none ≠ [] ∧
    MockScraper.get_prices "Umbrella 2kg" none = MockScraper.defaultOffers :=
  ⟨(C9_price_source_nonempty_fallback "Umbrella 2kg" none).1,
   (C9_price_source_nonempty_fallback "Umbrella 2kg" none).2 (by decide)⟩

/-- C3 counterexample: the token "hello" is neither absent nor one of the
recognized encodings, yet it decodes to "need_products", not "need_area" as
the claim states. -/
theorem C3_counterexample_unrecognized_token :
    parse_sms_step (some (.str "hello")) = "need_products" ∧
    parse_sms_step (some (.str "hello")) ≠ "need_area" := by
  constructor
  · decide
  · decide

/-- C3 amended: decoding a stored token yields "need_area" for an absent or
empty token, "have_results" for a `prices:`-prefixed one, each of the three
literal step names for itself, the token with every "sms_step:" occurrence
removed for other `sms_step:`-prefixed tokens (a string that need not be one
of the four states), and "need_products" — not "need_area" — for every other
unrecognized token. -/
theorem C3_amended_decode_characterization :
    parse_sms_step none = "need_area" ∧
    parse_sms_step (some (.str "")) = "need_area" ∧
    (∀ snap, parse_sms_step (some (.pricesGood snap)) = "have_results") ∧
    (∀ j, parse_sms_step (some (.pricesBad j)) = "have_results") ∧
    (∀ s, s ∈ ["need_area", "need_search_type", "need_products"] →
      parse_sms_step (some (.str s)) = s) ∧
    (∀ s, s ≠ "" → ¬pyStartsWith s "prices:" = true →
      s ∉ ["need_area", "need_search_type", "need_products"] →
      pyStartsWith s "sms_step:" = true →
      parse_sms_step (some (.str s)) = pyReplace s "sms_step:" "") ∧
    (∀ s, s ≠ "" → ¬pyStartsWith s "prices:" = true →
      s ∉ ["need_area", "need_search_type", "need_products"] →
      ¬pyStartsWith s "sms_step:" = true →
      parse_sms_step (some (.str s)) = "need_products") := by
  refine ⟨rfl, by decide, fun snap => rfl, fun j => rfl, ?_, ?_, ?_⟩
  · intro s hs
    simp only [List.mem_cons, List.not_mem_nil, or_false] at hs
    rcases hs with rfl | rfl | rfl
    · decide
    · decide
    · decide
  · intro s h0 h1 h2 h3
    simp only [parse_sms_step]
    rw [if_neg h0, if_neg h1, if_neg (by simpa using h2), if_pos h3]
  · intro s h0 h1 h2 h3
    simp only [parse_sms_step]
    rw [if_neg h0, if_neg h1, if_neg (by simpa using h2), if_neg h3]

/-- Witness for the amended C3 decode characterization on concrete tokens. -/
theorem C3_amended_decode_characterization_witness :
    parse_sms_step (some (.str "sms_step:weird")) = "weird" ∧
    parse_sms_step (some (.str "junk")) = "need_products" := by
  constructor
  · have h := C3_amended_decode_characterization.2.2.2.2.2.1 "sms_step:weird"
      (by decide) (by decide) (by decide) (by decide)
    rw [h]
    decide
  · exact C3_amended_decode_characterization.2.2.2.2.2.2 "junk"
      (by decide) (by decide) (by decide) (by decide)

theorem handle_eq_dispatch_some {db : DB} {phone text : String} {u : UserRec}
    (hu : db.findUser phone = some u) :
    handle_incoming_sms db phone text =
      smsDispatch db u (pyStrip text) (pyUpper (pyStrip text)) := by
  unfold handle_incoming_sms
  rw [hu]

theorem handle_eq_dispatch_none {db : DB} {phone text : String}
    (hu : db.findUser phone = none) :
    handle_incoming_sms db phone text =
      smsDispatch (db.addUser (fun uid => ⟨uid, phone, none, none, none⟩)).1
        (db.addUser (fun uid => ⟨uid, phone, none, none, none⟩)).2
        (pyStrip text) (pyUpper (pyStrip text)) := by
  unfold handle_incoming_sms
  rw [hu]

theorem smsDispatch_order {db0 : DB} {user : UserRec} {mt mu : String}
    (hO : mu = "ORDER") :
    smsDispatch db0 user mt mu = orderBranch db0 user := by
  unfold smsDispatch
  rw [if_pos hO]

theorem smsDispatch_need_area_match {db0 : DB} {user : UserRec} {mt mu : String}
    (hO : mu ≠ "ORDER") (hC : mu ≠ "CANCEL") (hN : mu ≠ "NEW")
    (hstep : parse_sms_step user.current_session_data = "need_area")
    (hm : matchesLocation mt = true) :
    smsDispatch db0 user mt mu =
      (db0.saveUser { user with location := some mt,
                                current_session_data := some (.str "need_search_type") },
       .searchTypePrompt) := by
  unfold smsDispatch
  rw [hstep, if_neg hO, if_neg hC, if_neg hN, if_pos rfl, if_pos hm]

theorem smsDispatch_need_area_nomatch {db0 : DB} {user : UserRec} {mt mu : String}
    (hO : mu ≠ "ORDER") (hC : mu ≠ "CANCEL") (hN : mu ≠ "NEW")
    (hstep : parse_sms_step user.current_session_data = "need_area")
    (hm : matchesLocation mt = false) :
    smsDispatch db0 user mt mu = (db0, .locationReprompt) := by
  unfold smsDispatch
  rw [hstep, if_neg hO, if_neg hC, if_neg hN, if_pos rfl,
    if_neg (by rw [hm]; exact Bool.false_ne_true)]

theorem smsDispatch_products {db0 : DB} {user : UserRec} {mt mu : String}
    (hO : mu ≠ "ORDER") (hC : mu ≠ "CANCEL") (hN : mu ≠ "NEW")
    (hstep : parse_sms_step user.current_session_data = "need_products" ∨
      parse_sms_step user.current_session_data = "have_results") :
    smsDispatch db0 user mt mu = productsBranch db0 user mt := by
  unfold smsDispatch
  rcases hstep with h | h <;>
    rw [h, if_neg hO, if_neg hC, if_neg hN, if_neg (by decide), if_neg (by decide)]

theorem findUser_phone {db : DB} {phone : String} {u : UserRec}
    (hu : db.findUser phone = some u) : u.phone_number = phone := by
  have := List.find?_some hu
  simpa using this

/-- C4: a trimmed message of the form 2-5 letters, dash, letters (and not one
of the override commands) received while the decoded step is need_area stores
the message as the record's location, advances the conversation state to
need_search_type, and replies with the search-type prompt. -/
theorem C4_need_area_location_accepted (db : DB) (phone text : String)
    (hO : pyUpper (pyStrip text) ≠ "ORDER") (hC : pyUpper (pyStrip text) ≠ "CANCEL")
    (hN : pyUpper (pyStrip text) ≠ "NEW")
    (hstep : smsStepOf db phone = "need_area")
    (hm : matchesLocation (pyStrip text) = true) :
    ∃ db', handle_incoming_sms db phone text = (db', .searchTypePrompt) ∧
      smsLocation db' phone = some (pyStrip text) ∧
      smsSession db' phone = some (.str "need_search_type") ∧
      smsStepOf db' phone = "need_search_type" := by
  rcases hu : db.findUser phone with _ | u
  · rw [handle_eq_dispatch_none hu,
      smsDispatch_need_area_match hO hC hN (by rfl) hm]
    refine ⟨_, rfl, ?_⟩
    have hf0 : (db.addUser (fun uid => ⟨uid, phone, none, none, none⟩)).1.findUser phone =
        some (db.addUser (fun uid => ⟨uid, phone, none, none, none⟩)).2 :=
      findUser_addUser hu rfl
    have hf : ((db.addUser (fun uid => ⟨uid, phone, none, none, none⟩)).1.saveUser
        { (db.addUser (fun uid => ⟨uid, phone, none, none, none⟩)).2 with
            location := some (pyStrip text)
            current_session_data := some (.str "need_search_type") }).findUser phone =
        some { (db.addUser (fun uid => ⟨uid, phone, none, none, none⟩)).2 with
                 location := some (pyStrip text)
                 current_session_data := some (.str "need_search_type") } :=
      findUser_saveUser hf0 (by rfl) (by rfl)
    unfold smsLocation smsStepOf smsSession
    rw [hf]
    exact ⟨rfl, rfl,
      (by decide : parse_sms_step (some (.str "need_search_type")) = "need_search_type")⟩
  · have hstep' : parse_sms_step u.current_session_data = "need_area" := by
      unfold smsStepOf smsSession at hstep
      rw [hu] at hstep
      exact hstep
    rw [handle_eq_dispatch_some hu, smsDispatch_need_area_match hO hC hN hstep' hm]
    refine ⟨_, rfl, ?_⟩
    have hf : (db.saveUser { u with location := some (pyStrip text)
                                    current_session_data := some (.str "need_search_type") }).findUser
          phone =
        some { u with location := some (pyStrip text)
                      current_session_data := some (.str "need_search_type") } :=
      findUser_saveUser hu (by rfl) (by show u.phone_number = phone; exact findUser_phone hu)
    unfold smsLocation smsStepOf smsSession
    rw [hf]
    exact ⟨rfl, rfl,
      (by decide : parse_sms_step (some (.str "need_search_type")) = "need_search_type")⟩

/-- Witness for C4 on a concrete store and a concrete valid location message. -/
theorem C4_need_area_location_accepted_witness :
    (pyUpper (pyStrip " NAI-Kileleshwa ") ≠ "ORDER") ∧
    (smsStepOf ⟨[⟨1, "p", some (.str "need_area"), none, none⟩], [], 2, 1⟩ "p" = "need_area") ∧
    (matchesLocation (pyStrip " NAI-Kileleshwa ") = true) ∧
    (∃ db', handle_incoming_sms ⟨[⟨1, "p", some (.str "need_area"), none, none⟩], [], 2, 1⟩
        "p" " NAI-Kileleshwa " = (db', .searchTypePrompt) ∧
      smsLocation db' "p" = some (pyStrip " NAI-Kileleshwa ") ∧
      smsSession db' "p" = some (.str "need_search_type") ∧
      smsStepOf db' "p" = "need_search_type") :=
  ⟨by decide, by decide, by decide,
   C4_need_area_location_accepted ⟨[⟨1, "p", some (.str "need_area"), none, none⟩], [], 2, 1⟩
     "p" " NAI-Kileleshwa " (by decide) (by decide) (by decide) (by decide) (by decide)⟩

/-- C5: a trimmed message that does not match the location pattern (and is not
an override command) received while the decoded step is need_area leaves the
customer record's location and session token unchanged, creates no order, and
replies with the location-format re-prompt rather than any failure. -/
theorem C5_need_area_invalid_location_frame (db : DB) (phone text : String)
    (hO : pyUpper (pyStrip text) ≠ "ORDER") (hC : pyUpper (pyStrip text) ≠ "CANCEL")
    (hN : pyUpper (pyStrip text) ≠ "NEW")
    (hstep : smsStepOf db phone = "need_area")
    (hm : matchesLocation (pyStrip text) = false) :
    ∃ db', handle_incoming_sms db phone text = (db', .locationReprompt) ∧
      smsLocation db' phone = smsLocation db phone ∧
      smsSession db' phone = smsSession db phone ∧
      db'.orders = db.orders := by
  rcases hu : db.findUser phone with _ | u
  · rw [handle_eq_dispatch_none hu,
      smsDispatch_need_area_nomatch hO hC hN (by rfl) hm]
    refine ⟨_, rfl, ?_⟩
    have hf0 : (db.addUser (fun uid => ⟨uid, phone, none, none, none⟩)).1.findUser phone =
        some ⟨db.nextUserId, phone, none, none, none⟩ :=
      findUser_addUser hu rfl
    unfold smsLocation smsSession
    rw [hf0, hu]
    exact ⟨rfl, rfl, rfl⟩
  · have hstep' : parse_sms_step u.current_session_data = "need_area" := by
      unfold smsStepOf smsSession at hstep
      rw [hu] at hstep
      exact hstep
    rw [handle_eq_dispatch_some hu, smsDispatch_need_area_nomatch hO hC hN hstep' hm]
    exact ⟨db, rfl, rfl, rfl, rfl⟩

/-- Witness for C5 on a concrete store and a malformed location message. -/
theorem C5_need_area_invalid_location_frame_witness :
    (matchesLocation (pyStrip "Kileleshwa") = false) ∧
    (smsStepOf ⟨[⟨1, "p", some (.str "need_area"), none, some "old"⟩], [], 2, 1⟩ "p" = "need_area") ∧
    (∃ db', handle_incoming_sms ⟨[⟨1, "p", some (.str "need_area"), none, some "old"⟩], [], 2, 1⟩
        "p" "Kileleshwa" = (db', .locationReprompt) ∧
      smsLocation db' "p" =
        smsLocation ⟨[⟨1, "p", some (.str "need_area"), none, some "old"⟩], [], 2, 1⟩ "p" ∧
      smsSession db' "p" =
        smsSession ⟨[⟨1, "p", some (.str "need_area"), none, some "old"⟩], [], 2, 1⟩ "p" ∧
      db'.orders = DB.orders ⟨[⟨1, "p", some (.str "need_area"), none, some "old"⟩], [], 2, 1⟩) :=
  ⟨by decide, by decide,
   C5_need_area_invalid_location_frame ⟨[⟨1, "p", some (.str "need_area"), none, some "old"⟩], [], 2, 1⟩
     "p" "Kileleshwa" (by decide) (by decide) (by decide) (by decide) (by decide)⟩

/-- C10: an ORDER message arriving when the stored token is absent, is a plain
token not prefixed by "prices:", or is a `prices:` token whose JSON payload
fails to decode, creates no order row, leaves the stored conversation token
unchanged, and replies that no recent price comparison exists. -/
theorem C10_order_without_snapshot (db : DB) (phone text : String)
    (hO : pyUpper (pyStrip text) = "ORDER")
    (hbad : smsSession db phone = none ∨
      (∃ s, smsSession db phone = some (.str s) ∧ pyStartsWith s "prices:" = false) ∨
      (∃ j, smsSession db phone = some (.pricesBad j))) :
    ∃ db', handle_incoming_sms db phone text = (db', .noRecentComparison) ∧
      db'.orders = db.orders ∧
      smsSession db' phone = smsSession db phone := by
  rcases hu : db.findUser phone with _ | u
  · rw [handle_eq_dispatch_none hu, smsDispatch_order hO]
    have hf0 : (db.addUser (fun uid => ⟨uid, phone, none, none, none⟩)).1.findUser phone =
        some (db.addUser (fun uid => ⟨uid, phone, none, none, none⟩)).2 :=
      findUser_addUser hu rfl
    refine ⟨_, rfl, rfl, ?_⟩
    unfold smsSession
    rw [hf0, hu]
    rfl
  · have hsess : smsSession db phone = u.current_session_data := by
      unfold smsSession
      rw [hu]
      rfl
    rw [handle_eq_dispatch_some hu]
    have hnone : orderBranch db u = (db, .noRecentComparison) := by
      rcases hbad with h | ⟨s, h, _⟩ | ⟨j, h⟩ <;>
        (rw [hsess] at h; unfold orderBranch; rw [h])
    rw [smsDispatch_order hO, hnone]
    exact ⟨db, rfl, rfl, rfl⟩

/-- Witness for C10 on a concrete store holding a malformed prices token. -/
theorem C10_order_without_snapshot_witness :
    (pyUpper (pyStrip " order ") = "ORDER") ∧
    (∃ db', handle_incoming_sms ⟨[⟨1, "p", some (.pricesBad "oops"), none, none⟩], [], 2, 1⟩
        "p" " order " = (db', .noRecentComparison) ∧
      db'.orders = [] ∧
      smsSession db' "p" =
        smsSession ⟨[⟨1, "p", some (.pricesBad "oops"), none, none⟩], [], 2, 1⟩ "p") :=
  ⟨by decide,
   C10_order_without_snapshot ⟨[⟨1, "p", some (.pricesBad "oops"), none, none⟩], [], 2, 1⟩
     "p" " order " (by decide) (Or.inr (Or.inr ⟨"oops", by decide⟩))⟩

/-- C2: an ORDER message arriving while the stored token is a decodable
`prices:` snapshot (as the results step stores it: non-empty, with non-empty
offer lists) creates exactly one new order row whose total price is the sum
over the snapshot's products of the minimum offer price plus the fixed
delivery fee of 150. -/
theorem C2_order_roundtrip_total (db : DB) (phone text : String) (u : UserRec) (snap : Snapshot)
    (hu : db.findUser phone = some u)
    (hsess : u.current_session_data = some (.pricesGood snap))
    (hO : pyUpper (pyStrip text) = "ORDER")
    (hne : snap ≠ [])
    (hoffers : ∀ kv ∈ snap, kv.2 ≠ []) :
    ∃ db' oid, handle_incoming_sms db phone text = (db', .orderConfirmed oid) ∧
      ∃ o : OrderRow, db'.orders = db.orders ++ [o] ∧
        o.total_price = (snap.map (fun kv => minPrice kv.2)).sum + 150 := by
  have hemp : snap.isEmpty = false := by
    cases hsn : snap.isEmpty
    · rfl
    · exact absurd (List.isEmpty_iff.mp hsn) hne
  rw [handle_eq_dispatch_some hu, smsDispatch_order hO]
  unfold orderBranch
  rw [hsess]
  dsimp only
  simp only [hemp, Bool.false_eq_true, if_false]
  refine ⟨_, _, rfl, _, rfl, ?_⟩
  show (snap.map (fun kv => (bestOfferD kv.2).price)).sum + MockScraper.DELIVERY_FEE_KES =
    (snap.map (fun kv => minPrice kv.2)).sum + 150
  rw [show (fun kv : String × List Offer => (bestOfferD kv.2).price) =
    (fun kv : String × List Offer => minPrice kv.2) from funext (fun kv => bestOfferD_price kv.2)]
  rfl

/-- Witness for C2 on a concrete snapshot with two products. -/
theorem C2_order_roundtrip_total_witness :
    (∃ db' oid,
      handle_incoming_sms
        ⟨[⟨1, "p", some (.pricesGood
            [("sugar", [⟨"A", 10, "1 min", "A", 12⟩, ⟨"B", 8, "2 min", "B", 9⟩]),
             ("milk", [⟨"C", 5, "3 min", "C", 6⟩])]), none, none⟩], [], 2, 1⟩
        "p" "ORDER" = (db', .orderConfirmed oid) ∧
      ∃ o : OrderRow, db'.orders = [] ++ [o] ∧
        o.total_price =
          (([("sugar", [⟨"A", 10, "1 min", "A", 12⟩, ⟨"B", 8, "2 min", "B", 9⟩]),
             ("milk", [⟨"C", 5, "3 min", "C", 6⟩])] : Snapshot).map
            (fun kv => minPrice kv.2)).sum + 150) :=
  C2_order_roundtrip_total
    ⟨[⟨1, "p", some (.pricesGood
        [("sugar", [⟨"A", 10, "1 min", "A", 12⟩, ⟨"B", 8, "2 min", "B", 9⟩]),
         ("milk", [⟨"C", 5, "3 min", "C", 6⟩])]), none, none⟩], [], 2, 1⟩
    "p" "ORDER"
    ⟨1, "p", some (.pricesGood
        [("sugar", [⟨"A", 10, "1 min", "A", 12⟩, ⟨"B", 8, "2 min", "B", 9⟩]),
         ("milk", [⟨"C", 5, "3 min", "C", 6⟩])]), none, none⟩
    [("sugar", [⟨"A", 10, "1 min", "A", 12⟩, ⟨"B", 8, "2 min", "B", 9⟩]),
     ("milk", [⟨"C", 5, "3 min", "C", 6⟩])]
    (by decide) (by decide) (by decide) (by decide) (by decide)

/-- C1: a message handled in step need_products or have_results (no override
command) whose text splits into a non-empty product list is answered with the
results reply, whose reported total-cheapest equals the sum over the requested
products (each counted once; all have offers, since the source never returns
an empty list) of the minimum offer price, and in which every displayed
product average is the arithmetic mean of that product's offer prices
truncated to an integer. -/
theorem C1_results_total_and_averages (db : DB) (phone text : String)
    (hO : pyUpper (pyStrip text) ≠ "ORDER") (hC : pyUpper (pyStrip text) ≠ "CANCEL")
    (hN : pyUpper (pyStrip text) ≠ "NEW")
    (hstep : smsStepOf db phone = "need_products" ∨ smsStepOf db phone = "have_results")
    (hprod : splitProducts (pyStrip text) ≠ []) :
    ∃ db' lines totalD,
      handle_incoming_sms db phone text =
        (db', .results lines totalD MockScraper.DELIVERY_FEE_KES) ∧
      (∃ keys : List String, keys.Nodup ∧
        (∀ p, p ∈ keys ↔ p ∈ splitProducts (pyStrip text)) ∧
        (totalD : ℚ) =
          (keys.map (fun p => minPrice (MockScraper.get_prices p (smsLocation db phone)))).sum) ∧
      (∀ l ∈ lines,
        l.avgDisplay = pyInt (offerAvg (MockScraper.get_prices l.product (smsLocation db phone)))) := by
  rcases hu : db.findUser phone with _ | u
  · exfalso
    have : smsStepOf db phone = "need_area" := by
      unfold smsStepOf smsSession
      rw [hu]
      rfl
    rcases hstep with h | h <;> (rw [this] at h; exact absurd h (by decide))
  · have hstep' : parse_sms_step u.current_session_data = "need_products" ∨
        parse_sms_step u.current_session_data = "have_results" := by
      unfold smsStepOf smsSession at hstep
      rw [hu] at hstep
      exact hstep
    have hloc : smsLocation db phone = u.location := by
      unfold smsLocation
      rw [hu]
      rfl
    rw [handle_eq_dispatch_some hu, smsDispatch_products hO hC hN hstep']
    unfold productsBranch
    have hp : (splitProducts (pyStrip text)).isEmpty = false := by
      cases hsp : (splitProducts (pyStrip text)).isEmpty
      · rfl
      · exact absurd (List.isEmpty_iff.mp hsp) hprod
    have ha : (buildAllPrices u.location (splitProducts (pyStrip text))).isEmpty = false := by
      cases hsa : (buildAllPrices u.location (splitProducts (pyStrip text))).isEmpty
      · rfl
      · exact absurd (List.isEmpty_iff.mp hsa) (buildAllPrices_ne_nil hprod)
    dsimp only
    simp only [hp, ha, Bool.false_eq_true, if_false]
    rcases buildAllPrices_spec u.location (splitProducts (pyStrip text)) with ⟨hent, hnd, hkeys⟩
    have hmapeq : (buildAllPrices u.location (splitProducts (pyStrip text))).map
          (fun kv => (bestOfferD kv.2).price) =
        (buildAllPrices u.location (splitProducts (pyStrip text))).map
          (fun kv => minPrice (MockScraper.get_prices kv.1 u.location)) :=
      List.map_congr_left (fun kv hkv => by rw [bestOfferD_price, hent kv hkv])
    have hint : IsIntQ (((buildAllPrices u.location (splitProducts (pyStrip text))).map
        (fun kv => (bestOfferD kv.2).price)).sum) := by
      rw [hmapeq]
      refine isIntQ_sum ?_
      intro x hx
      rcases List.mem_map.mp hx with ⟨kv, hkv, rfl⟩
      exact minPrice_isInt (get_prices_isInt kv.1 u.location)
    refine ⟨_, _, _, rfl, ⟨(buildAllPrices u.location (splitProducts (pyStrip text))).map Prod.fst,
      hnd, hkeys, ?_⟩, ?_⟩
    · rw [hloc, pyInt_eq_self hint, hmapeq, List.map_map]
      rfl
    · intro l hl
      rcases List.mem_map.mp hl with ⟨kv, hkv, rfl⟩
      show pyInt (offerAvg kv.2) = _
      rw [hloc]
      have : MockScraper.get_prices (lineOf kv.1 kv.2).product u.location = kv.2 := by
        show MockScraper.get_prices kv.1 u.location = kv.2
        rw [hent kv hkv]
      rw [this]

/-- Witness for C1 on a concrete store, step need_products, message
"Sugar, Milk". -/
theorem C1_results_total_and_averages_witness :
    (smsStepOf ⟨[⟨1, "p", some (.str "need_products"), none, none⟩], [], 2, 1⟩ "p" =
      "need_products") ∧
    (splitProducts (pyStrip "Sugar, Milk") ≠ []) ∧
    (∃ db' lines totalD,
      handle_incoming_sms ⟨[⟨1, "p", some (.str "need_products"), none, none⟩], [], 2, 1⟩
        "p" "Sugar, Milk" = (db', .results lines totalD MockScraper.DELIVERY_FEE_KES) ∧
      (∃ keys : List String, keys.Nodup ∧
        (∀ p, p ∈ keys ↔ p ∈ splitProducts (pyStrip "Sugar, Milk")) ∧
        (totalD : ℚ) = (keys.map (fun p => minPrice (MockScraper.get_prices p
          (smsLocation ⟨[⟨1, "p", some (.str "need_products"), none, none⟩], [], 2, 1⟩ "p")))).sum) ∧
      (∀ l ∈ lines, l.avgDisplay = pyInt (offerAvg (MockScraper.get_prices l.product
        (smsLocation ⟨[⟨1, "p", some (.str "need_products"), none, none⟩], [], 2, 1⟩ "p"))))) :=
  ⟨by decide, by decide,
   C1_results_total_and_averages ⟨[⟨1, "p", some (.str "need_products"), none, none⟩], [], 2, 1⟩
     "p" "Sugar, Milk" (by decide) (by decide) (by decide) (Or.inl (by decide)) (by decide)⟩

theorem pyTake_append_left (s t : String) (n : ℕ) (h : n ≤ s.data.length) :
    pyTake (s ++ t) n = pyTake s n := by
  unfold pyTake
  rw [String.data_append, List.take_append_of_le_length h]

theorem ussdCore_ok_screen {phone text : String} {db : DB} {sf df : Bool} {r : UssdOutcome}
    (hc : ussdCore phone text db sf df = .ok r) : screenOk r.screen := by
  unfold ussdCore at hc
  dsimp only at hc
  repeat' split at hc
  all_goals cases hc
  all_goals dsimp only
  all_goals first
    | exact Or.inl (by decide)
    | exact Or.inr (by decide)
    | (unfold screenOk
       rw [pyTake_append_left "END Your recent orders:\n" _ 4 (by decide)]
       exact Or.inr (by decide))

/-- C6: for every phone number, accumulated input text, store state and
injected collaborator failures, the USSD engine returns a screen beginning
with "CON " or "END ", and whenever the body raises internally the returned
screen is exactly the generic "END An error occurred" terminate screen
(no exception crosses the channel boundary). -/
theorem C6_ussd_screen_prefix_and_error (phone text : String) (db : DB) (sf df : Bool) :
    screenOk (ussd_logic phone text db sf df).screen ∧
    (ussdCore phone text db sf df = .error () →
      (ussd_logic phone text db sf df).screen = errorScreen) := by
  constructor
  · unfold ussd_logic
    cases hc : ussdCore phone text db sf df with
    | ok r => exact ussdCore_ok_screen hc
    | error e =>
      show screenOk errorScreen
      exact Or.inr (by decide)
  · intro h
    unfold ussd_logic
    rw [h]

/-- Witness for C6 at an input whose level-2 branch hits an injected storage
failure. -/
theorem C6_ussd_screen_prefix_and_error_witness :
    screenOk (ussd_logic "p" "1*NAI" ⟨[], [], 1, 1⟩ false true).screen ∧
    (ussdCore "p" "1*NAI" ⟨[], [], 1, 1⟩ false true = .error ()) ∧
    (ussd_logic "p" "1*NAI" ⟨[], [], 1, 1⟩ false true).screen = errorScreen :=
  ⟨(C6_ussd_screen_prefix_and_error "p" "1*NAI" ⟨[], [], 1, 1⟩ false true).1,
   rfl,
   (C6_ussd_screen_prefix_and_error "p" "1*NAI" ⟨[], [], 1, 1⟩ false true).2 rfl⟩

/-- C7: a USSD path of exactly two segments whose first segment is "1" stores
the upper-cased trimmed second segment in both the city-code and location
fields, seeds the conversation token to "sms_step:need_area" (which decodes to
need_area), attempts the explanatory notification SMS, and returns the END
acknowledgement screen — for either value of the send-failure flag, so a
notification failure does not change the returned screen. -/
theorem C7_city_capture (phone text : String) (db : DB) (sf : Bool) (seg : String)
    (hsplit : pySplit (pyStrip text) (fun c => c == '*') = ["1", seg]) :
    ∃ db', ussd_logic phone text db sf false = ⟨cityAckScreen, db', [(phone, welcomeSms)]⟩ ∧
      pyTake cityAckScreen 4 = "END " ∧
      ∃ u', db'.findUser phone = some u' ∧
        u'.city_code = some (pyUpper (pyStrip seg)) ∧
        u'.location = some (pyUpper (pyStrip seg)) ∧
        u'.current_session_data = some (.str "sms_step:need_area") ∧
        parse_sms_step u'.current_session_data = "need_area" := by
  have ht : ¬pyStrip text = "" := by
    intro h
    rw [h] at hsplit
    have h2 : ([""] : List String) = ["1", seg] := hsplit
    injection h2 with h3 h4
    exact absurd h3 (by decide)
  have hif : (if pyStrip text = "" then [] else pySplit (pyStrip text) fun c => c == '*') =
      ["1", seg] := by
    rw [if_neg ht, hsplit]
  rcases hu : db.findUser phone with _ | u
  · have hc : ussdCore phone text db sf false =
        .ok ⟨cityAckScreen,
          (db.addUser (fun uid => ⟨uid, phone, some (.str "sms_step:need_area"),
            some (pyUpper (pyStrip seg)), some (pyUpper (pyStrip seg))⟩)).1,
          [(phone, welcomeSms)]⟩ := by
      unfold ussdCore
      dsimp only
      rw [hif]
      rw [if_neg (by simp), if_neg (by simp), if_pos (⟨rfl, rfl⟩ :
        (["1", seg] : List String).length = 2 ∧ (["1", seg] : List String).headD "" = "1"),
        if_neg Bool.false_ne_true]
      rw [hu]
      rfl
    refine ⟨(db.addUser (fun uid => ⟨uid, phone, some (.str "sms_step:need_area"),
        some (pyUpper (pyStrip seg)), some (pyUpper (pyStrip seg))⟩)).1,
      ?_, by decide, ?_⟩
    · unfold ussd_logic
      rw [hc]
    · exact ⟨_, findUser_addUser hu rfl, rfl, rfl, rfl,
        (by decide : parse_sms_step (some (.str "sms_step:need_area")) = "need_area")⟩
  · have hc : ussdCore phone text db sf false =
        .ok ⟨cityAckScreen,
          db.saveUser { u with city_code := some (pyUpper (pyStrip seg))
                               location := some (pyUpper (pyStrip seg))
                               current_session_data := some (.str "sms_step:need_area") },
          [(phone, welcomeSms)]⟩ := by
      unfold ussdCore
      dsimp only
      rw [hif]
      rw [if_neg (by simp), if_neg (by simp), if_pos (⟨rfl, rfl⟩ :
        (["1", seg] : List String).length = 2 ∧ (["1", seg] : List String).headD "" = "1"),
        if_neg Bool.false_ne_true]
      rw [hu]
      rfl
    refine ⟨db.saveUser { u with city_code := some (pyUpper (pyStrip seg))
                                 location := some (pyUpper (pyStrip seg))
                                 current_session_data := some (.str "sms_step:need_area") },
      ?_, by decide, ?_⟩
    · unfold ussd_logic
      rw [hc]
    · refine ⟨_, findUser_saveUser hu (by rfl)
        (by show u.phone_number = phone; exact findUser_phone hu), rfl, rfl, rfl,
        (by decide : parse_sms_step (some (.str "sms_step:need_area")) = "need_area")⟩

/-- Witness for C7 on the concrete path "1*NAI" with an empty store. -/
theorem C7_city_capture_witness :
    (pySplit (pyStrip "1*NAI") (fun c => c == '*') = ["1", "NAI"]) ∧
    (∃ db', ussd_logic "p" "1*NAI" ⟨[], [], 1, 1⟩ false false =
        ⟨cityAckScreen, db', [("p", welcomeSms)]⟩ ∧
      pyTake cityAckScreen 4 = "END " ∧
      ∃ u', db'.findUser "p" = some u' ∧
        u'.city_code = some (pyUpper (pyStrip "NAI")) ∧
        u'.location = some (pyUpper (pyStrip "NAI")) ∧
        u'.current_session_data = some (.str "sms_step:need_area") ∧
        parse_sms_step u'.current_session_data = "need_area") :=
  ⟨by decide, C7_city_capture "p" "1*NAI" ⟨[], [], 1, 1⟩ false "NAI" (by decide)⟩

/-- Store used to exercise the recent-orders listing: one customer and six
orders in insertion order (ids 1..6). -/
def ordersDemoDB : DB :=
  ⟨[⟨1, "p", none, none, none⟩],
   [⟨1, 1, "A", 1, "P"⟩, ⟨2, 1, "B", 2, "P"⟩, ⟨3, 1, "C", 3, "P"⟩,
    ⟨4, 1, "D", 4, "P"⟩, ⟨5, 1, "E", 5, "P"⟩, ⟨6, 1, "F", 6, "P"⟩], 2, 7⟩

set_option maxRecDepth 40000 in
/-- C8 counterexample: with six stored orders the listing shows the first five
in storage order (ids 1..5, the oldest), which differs from any listing of the
five most recent orders (ids 2..6, in either direction), so the claim's "most
recent" is false — the query applies no ordering. -/
theorem C8_counterexample_oldest_not_recent :
    (ussd_logic "p" "2" ordersDemoDB false false).screen =
      "END Your recent orders:\n" ++
        pyJoin "\n" ((ordersDemoDB.orders.take 5).map orderLine) ∧
    ordersDemoDB.orders.take 5 ≠ ordersDemoDB.orders.drop 1 ∧
    (ussd_logic "p" "2" ordersDemoDB false false).screen ≠
      "END Your recent orders:\n" ++
        pyJoin "\n" ((ordersDemoDB.orders.drop 1).map orderLine) ∧
    (ussd_logic "p" "2" ordersDemoDB false false).screen ≠
      "END Your recent orders:\n" ++
        pyJoin "\n" (((ordersDemoDB.orders.drop 1).reverse).map orderLine) := by
  refine ⟨?_, ?_, ?_, ?_⟩ <;> with_unfolding_all decide

/-- C8 amended: on path "2", a phone without a record gets the "no orders yet"
terminate screen with a hint, a customer without orders gets the plain "no
orders yet" screen, and otherwise the screen lists the first five of the
customer's orders in storage order (no recency ordering is applied), each line
rendered with id, item string truncated to 30 characters, total, and status. -/
theorem C8_amended_orders_listing (phone text : String) (db : DB) (sf : Bool)
    (h2 : pyStrip text = "2") :
    (db.findUser phone = none →
      ussd_logic phone text db sf false = ⟨noUserOrdersScreen, db, []⟩) ∧
    (∀ u, db.findUser phone = some u →
      (db.orders.filter (fun o => o.user_id == u.id)).take 5 = [] →
      ussd_logic phone text db sf false = ⟨noOrdersScreen, db, []⟩) ∧
    (∀ u, db.findUser phone = some u →
      (db.orders.filter (fun o => o.user_id == u.id)).take 5 ≠ [] →
      ussd_logic phone text db sf false =
        ⟨"END Your recent orders:\n" ++ pyJoin "\n"
          (((db.orders.filter (fun o => o.user_id == u.id)).take 5).map orderLine), db, []⟩) := by
  have hparts : (if pyStrip text = "" then [] else pySplit (pyStrip text) fun c => c == '*') =
      ["2"] := by
    rw [h2]
    decide
  refine ⟨?_, ?_, ?_⟩
  · intro hnone
    have hc : ussdCore phone text db sf false = .ok ⟨noUserOrdersScreen, db, []⟩ := by
      unfold ussdCore
      dsimp only
      rw [hparts, if_neg (by decide), if_neg (by decide), if_neg (by decide), if_neg (by decide),
        if_neg (by decide),
        if_pos (⟨rfl, rfl⟩ :
          (["2"] : List String).length = 1 ∧ (["2"] : List String).headD "" = "2"),
        if_neg Bool.false_ne_true, hnone]
    unfold ussd_logic
    rw [hc]
  · intro u hsome hempty
    have hie : ((db.orders.filter (fun o => o.user_id == u.id)).take 5).isEmpty = true :=
      List.isEmpty_iff.mpr hempty
    have hc : ussdCore phone text db sf false = .ok ⟨noOrdersScreen, db, []⟩ := by
      unfold ussdCore
      dsimp only
      rw [hparts, if_neg (by decide), if_neg (by decide), if_neg (by decide), if_neg (by decide),
        if_neg (by decide),
        if_pos (⟨rfl, rfl⟩ :
          (["2"] : List String).length = 1 ∧ (["2"] : List String).headD "" = "2"),
        if_neg Bool.false_ne_true, hsome]
      dsimp only
      rw [hie, if_pos rfl]
    unfold ussd_logic
    rw [hc]
  · intro u hsome hne
    have hie : ((db.orders.filter (fun o => o.user_id == u.id)).take 5).isEmpty = false := by
      cases hx : ((db.orders.filter (fun o => o.user_id == u.id)).take 5).isEmpty
      · rfl
      · exact absurd (List.isEmpty_iff.mp hx) hne
    have hc : ussdCore phone text db sf false =
        .ok ⟨"END Your recent orders:\n" ++ pyJoin "\n"
          (((db.orders.filter (fun o => o.user_id == u.id)).take 5).map orderLine), db, []⟩ := by
      unfold ussdCore
      dsimp only
      rw [hparts, if_neg (by decide), if_neg (by decide), if_neg (by decide), if_neg (by decide),
        if_neg (by decide),
        if_pos (⟨rfl, rfl⟩ :
          (["2"] : List String).length = 1 ∧ (["2"] : List String).headD "" = "2"),
        if_neg Bool.false_ne_true, hsome]
      dsimp only
      rw [hie, if_neg Bool.false_ne_true]
    unfold ussd_logic
    rw [hc]

/-- Witness for the amended C8 listing on the six-order store. -/
theorem C8_amended_orders_listing_witness :
    (pyStrip "2" = "2") ∧
    ussd_logic "p" "2" ordersDemoDB false false =
      ⟨"END Your recent orders:\n" ++ pyJoin "\n"
        (((ordersDemoDB.orders.filter (fun o => o.user_id == (1 : ℕ))).take 5).map orderLine),
       ordersDemoDB, []⟩ :=
  ⟨by decide,
   (C8_amended_orders_listing "p" "2" ordersDemoDB false (by decide)).2.2
     ⟨1, "p", none, none, none⟩ (by decide) (by decide)⟩
